import Mathlib

/-!
Verification development for the deepinfra2api proxy repository.

The repository contains five TypeScript variants of a single-file HTTP proxy
in front of the DeepInfra OpenAI-compatible API:

  - src/index.ts        : cached model catalog with keyword filtering,
                          wildcard CORS, full error envelopes.
  - src/unnamed/part_000: no filtering, wildcard CORS, chat handler always
                          requests text/event-stream.
  - src/unnamed/part_001: no model cache, origin-whitelist CORS, blacklist
                          mock for chat, terse error bodies.
  - src/unnamed/part_002: cached catalog without body validation.
  - src/unnamed/part_003: cached catalog with validation, no filtering.

The pure request/response logic of these files is shallowly embedded below.
JavaScript strings are modelled as Lean `String` values, with the string
operations used by the source given their JavaScript semantics in terms of
the underlying character list.  The `Headers` Web API is modelled as an
association list with case-insensitive names.  Network effects are made
explicit: each handler takes the outcome of its upstream fetch as an
argument and reports whether an upstream request was issued.
-/

/-- JavaScript `String.prototype.startsWith`: the first `pre.length`
characters of `s` are exactly `pre`. -/
def jsStartsWith (s pre : String) : Bool :=
  s.data.take pre.data.length == pre.data

/-- JavaScript `String.prototype.slice(n)` (for a nonnegative index):
drop the first `n` characters. -/
def jsSlice (s : String) (n : Nat) : String :=
  ⟨s.data.drop n⟩

/-- JavaScript `String.prototype.toLowerCase` (on the characters that occur
in this repository, i.e. ASCII model ids and header names). -/
def jsToLower (s : String) : String :=
  ⟨s.data.map Char.toLower⟩

/-- JavaScript `String.prototype.includes`: substring containment. -/
def jsIncludes (s sub : String) : Bool :=
  decide (sub.data <:+: s.data)

/-- JavaScript truthiness of a nullable string: `null`/`undefined` and the
empty string are falsy. -/
def jsTruthy : Option String → Bool
  | none => false
  | some s => !(s == "")

/-- Case-insensitive header-name comparison, as in the `Headers` Web API. -/
def hdrNameEq (a b : String) : Bool :=
  jsToLower a == jsToLower b

/-- `Headers.prototype.set`: replace the value of an existing header with a
matching (case-insensitive) name, or append a new entry. -/
def headerSet (hs : List (String × String)) (name value : String) :
    List (String × String) :=
  if hs.any (fun p => hdrNameEq p.1 name) then
    hs.map (fun p => if hdrNameEq p.1 name then (p.1, value) else p)
  else
    hs ++ [(name, value)]

/-- `Headers.prototype.get`: the value of the first header with a matching
(case-insensitive) name, if any. -/
def headerGet (hs : List (String × String)) (name : String) : Option String :=
  (hs.find? (fun p => hdrNameEq p.1 name)).map (·.2)

/-- A JSON value, used to model the response bodies the proxy constructs.
All numbers occurring in those bodies are natural numbers. -/
inductive Json where
  | str (s : String)
  | num (n : Nat)
  | null
  | arr (xs : List Json)
  | obj (fields : List (String × Json))

/-- The error envelope every error response of `src/index.ts` is built from:
an object with a single `error` field holding `message`, `type` and `code`. -/
def errorEnvelope (message type_ : String) (code : Nat) : Json :=
  Json.obj [("error", Json.obj [("message", Json.str message),
                                ("type", Json.str type_),
                                ("code", Json.num code)])]

/-- Whether a JSON body is an error envelope whose `code` field mirrors the
given HTTP status. -/
def isErrorEnvelope : Json → Nat → Bool
  | Json.obj [("error", Json.obj [("message", Json.str _),
                                  ("type", Json.str _),
                                  ("code", Json.num c)])], status => c == status
  | _, _ => false

/-- A model record from the upstream catalog (interface `ModelData`).  The
optional `metadata` fields are never inspected by the proxy and are elided. -/
structure ModelData where
  id : String
  object : String
  created : Nat
  owned_by : String
deriving DecidableEq

/-- JSON serialization of a model record. -/
def modelToJson (m : ModelData) : Json :=
  Json.obj [("id", Json.str m.id), ("object", Json.str m.object),
            ("created", Json.num m.created), ("owned_by", Json.str m.owned_by)]

/-- The parsed JSON body of an upstream `/models` response, classified by the
shape of its `data` field: a present array, a missing (or falsy) field, or a
truthy non-array value. -/
inductive ModelsBody where
  | withData (data : List ModelData)
  | missingData
  | dataNotArray
deriving DecidableEq

/-- Outcome of one upstream `/models` fetch: a transport error (rejected
fetch or unparsable JSON body), or an HTTP response with its `ok` flag and
parsed body. -/
inductive UpstreamResult where
  | fetchError
  | httpResponse (ok : Bool) (body : ModelsBody)
deriving DecidableEq

/-- A refresh succeeds exactly when the response is `ok` and its body carries
the expected `data` array. -/
def isModelsSuccess : UpstreamResult → Bool
  | .httpResponse true (.withData _) => true
  | _ => false

/-- The mutable module-level cache of `src/index.ts` (and of part_000/2/3):
`cachedSourceData` and `cacheTimestamp`, both initially `null`. -/
structure CacheState where
  cachedSourceData : Option (List ModelData)
  cacheTimestamp : Option Nat
deriving DecidableEq

/-- `CACHE_TTL = 60 * 1000` (one minute, in milliseconds). -/
def CACHE_TTL : Nat := 60 * 1000

/-- An upstream `/chat/completions` response: HTTP status and an opaque body
stream (relayed unmodified to the caller). -/
structure UpstreamChatResponse where
  status : Nat
  body : String
deriving DecidableEq

/-- A parsed chat-completions request body: `model` may be absent, `stream`
is its truthiness; remaining fields are passed through opaquely. -/
structure ChatRequest where
  model : Option String
  stream : Bool
deriving DecidableEq

/-- The body of a response sent to the caller: a locally constructed JSON
value, or the pass-through of an upstream byte stream. -/
inductive ResponseBody where
  | json (j : Json)
  | stream (s : String)

/-- The JSON body of a successful catalog response:
`createJsonResponse with object "list" and data`. -/
def listBody (data : List ModelData) : Json :=
  Json.obj [("object", Json.str "list"), ("data", Json.arr (data.map modelToJson))]

/-- Number of upstream requests issued by a `getModelsData` call, read off
the `fetched` flag of its result. -/
def fetchCount (r : Except Unit (List ModelData) × CacheState × Bool) : Nat :=
  if r.2.2 then 1 else 0

namespace IndexTs

/-- `EXCLUDED_MODEL_KEYWORDS` of `src/index.ts`. -/
def EXCLUDED_MODEL_KEYWORDS : List String :=
  ["stabilityai", "black-forest-labs", "bria", "seedream", "image-edit",
   "clip-vit", "ocr", "janus", "diffusion"]

/-- The filtering step inside `getModelsData` of `src/index.ts`: keep only
the models whose lowercased id contains none of the excluded keywords. -/
def filterModels (data : List ModelData) : List ModelData :=
  data.filter (fun model =>
    !(EXCLUDED_MODEL_KEYWORDS.any (fun keyword =>
        jsIncludes (jsToLower model.id) keyword)))

/-- The `try`/`catch` body of `getModelsData` in `src/index.ts`, reached on a
cache miss: on a transport error, a non-`ok` status or an invalid body
structure an error is thrown and caught, falling back to the stale cache when
one exists and rethrowing otherwise; on success the filtered list is stored
together with the current timestamp and returned.  The final component
records that an upstream request was issued. -/
def refreshModels (st : CacheState) (now : Nat) (u : UpstreamResult) :
    Except Unit (List ModelData) × CacheState × Bool :=
  match u with
  | .httpResponse true (.withData data) =>
      let filteredModels := filterModels data
      (Except.ok filteredModels, ⟨some filteredModels, some now⟩, true)
  | _ =>
      match st.cachedSourceData with
      | some d => (Except.ok d, st, true)
      | none => (Except.error (), st, true)

/-- `getModelsData` of `src/index.ts`: serve the cached snapshot while
`cachedSourceData` and `cacheTimestamp` are truthy and the age is below
`CACHE_TTL`, otherwise refresh.  Result: the returned (or thrown) value, the
cache state after the call, and whether an upstream request was issued. -/
def getModelsData (st : CacheState) (now : Nat) (u : UpstreamResult) :
    Except Unit (List ModelData) × CacheState × Bool :=
  match st.cachedSourceData, st.cacheTimestamp with
  | some cached, some t =>
      if t != 0 && decide (now - t < CACHE_TTL) then (Except.ok cached, st, false)
      else refreshModels st now u
  | _, _ => refreshModels st now u

/-- The `GET /v1/models` route of `src/index.ts`: status and JSON body, the
cache state after the call, and whether an upstream request was issued. -/
def modelsEndpoint (st : CacheState) (now : Nat) (u : UpstreamResult) :
    (Nat × Json) × CacheState × Bool :=
  match getModelsData st now u with
  | (Except.ok modelsData, st2, fetched) => ((200, listBody modelsData), st2, fetched)
  | (Except.error _, st2, fetched) =>
      ((500, errorEnvelope "Failed to get models" "server_error" 500), st2, fetched)

/-- `getUpstreamHeaders` of `src/index.ts`. -/
def getUpstreamHeaders : List (String × String) :=
  [("User-Agent", "Mozilla/5.0 (Windows NT 10.0; Win64; x64) AppleWebKit/537.36 (KHTML, like Gecko) Chrome/133.0.0.0 Safari/537.36 Edg/133.0.0.0"),
   ("Accept", "application/json"),
   ("Accept-Encoding", "gzip, deflate, br, zstd"),
   ("Content-Type", "application/json"),
   ("sec-ch-ua-platform", "Windows"),
   ("X-Deepinfra-Source", "web-page"),
   ("sec-ch-ua", "\"Not(A:Brand\";v=\"99\", \"Microsoft Edge\";v=\"133\", \"Chromium\";v=\"133\""),
   ("sec-ch-ua-mobile", "?0"),
   ("Origin", "https://deepinfra.com"),
   ("Sec-Fetch-Site", "same-site"),
   ("Sec-Fetch-Mode", "cors"),
   ("Sec-Fetch-Dest", "empty"),
   ("Referer", "https://deepinfra.com/")]

/-- The headers sent with the upstream chat request in `src/index.ts`:
`getUpstreamHeaders()`, with `Accept` overridden to `text/event-stream`
exactly when `body.stream` is truthy. -/
def chatUpstreamHeaders (stream : Bool) : List (String × String) :=
  if stream then headerSet getUpstreamHeaders "Accept" "text/event-stream"
  else getUpstreamHeaders

/-- `validateApiKey` of `src/index.ts`. -/
def validateApiKey (apiKey authHeader : String) : Bool :=
  if !(jsStartsWith authHeader "Bearer ") then false
  else jsSlice authHeader 7 == apiKey

/-- The `POST /v1/chat/completions` route of `src/index.ts` after routing:
result is the response status, the response body, and whether an upstream
request was issued.  `bodyResult` is the outcome of `request.json()` and
`upstream` the outcome of the upstream fetch; either throw is caught and
turned into a 500 envelope carrying the error message. -/
def chatHandler (apiKey : String) (authHeader : Option String)
    (bodyResult : Except String ChatRequest)
    (upstream : Except String UpstreamChatResponse) :
    Nat × ResponseBody × Bool :=
  if !(jsTruthy authHeader) then
    (401, .json (errorEnvelope "Missing Authorization header" "authentication_error" 401), false)
  else if !(validateApiKey apiKey (authHeader.getD "")) then
    (401, .json (errorEnvelope "Invalid API key" "authentication_error" 401), false)
  else
    match bodyResult with
    | Except.error msg => (500, .json (errorEnvelope msg "server_error" 500), false)
    | Except.ok _body =>
        match upstream with
        | Except.error msg => (500, .json (errorEnvelope msg "server_error" 500), true)
        | Except.ok r => (r.status, .stream r.body, true)

/-- The fallback route of `src/index.ts` for an unmatched path. -/
def notFoundResponse (path : String) : Nat × Json :=
  (404, errorEnvelope
    ("Route " ++ path ++ " not found. Available: /v1/models, /v1/chat/completions")
    "invalid_request_error" 404)

end IndexTs

namespace Part000

/-- `getUpstreamHeaders` of `src/unnamed/part_000` (identical to the one in
`src/index.ts`). -/
def getUpstreamHeaders : List (String × String) :=
  [("User-Agent", "Mozilla/5.0 (Windows NT 10.0; Win64; x64) AppleWebKit/537.36 (KHTML, like Gecko) Chrome/133.0.0.0 Safari/537.36 Edg/133.0.0.0"),
   ("Accept", "application/json"),
   ("Accept-Encoding", "gzip, deflate, br, zstd"),
   ("Content-Type", "application/json"),
   ("sec-ch-ua-platform", "Windows"),
   ("X-Deepinfra-Source", "web-page"),
   ("sec-ch-ua", "\"Not(A:Brand\";v=\"99\", \"Microsoft Edge\";v=\"133\", \"Chromium\";v=\"133\""),
   ("sec-ch-ua-mobile", "?0"),
   ("Origin", "https://deepinfra.com"),
   ("Sec-Fetch-Site", "same-site"),
   ("Sec-Fetch-Mode", "cors"),
   ("Sec-Fetch-Dest", "empty"),
   ("Referer", "https://deepinfra.com/")]

/-- The headers sent with the upstream chat request in
`src/unnamed/part_000`: the chat handler overrides `Accept` to
`text/event-stream` unconditionally, without consulting the request body. -/
def chatUpstreamHeaders (_body : ChatRequest) : List (String × String) :=
  headerSet getUpstreamHeaders "Accept" "text/event-stream"

end Part000

namespace Part001

/-- `MODEL_BLACKLIST` of `src/unnamed/part_001`. -/
def MODEL_BLACKLIST : List String :=
  ["flux", "sdxl", "stable-diffusion", "bria", "clip", "embedding",
   "text2vec", "bert", "gte-", "e5-", "fibo", "remove_background",
   "erase_foreground", "gen_fill", "tts", "whisper"]

/-- `getCorsHeaders` of `src/unnamed/part_001`: base headers, with
`Access-Control-Allow-Origin` set to `*` when no request origin is present,
and echoed together with `Vary: Origin` when the origin is whitelisted (or
the whitelist contains `*`); a non-whitelisted origin adds no
`Access-Control-Allow-Origin` header at all. -/
def getCorsHeaders (allowedOrigins : List String) (requestOrigin : Option String) :
    List (String × String) :=
  let headers := [("Access-Control-Allow-Methods", "GET, POST, OPTIONS, PUT, DELETE"),
    ("Access-Control-Allow-Headers", "Content-Type, Authorization, X-Requested-With, Accept, Origin, User-Agent, sec-ch-ua, sec-ch-ua-mobile, sec-ch-ua-platform, Referer"),
    ("Access-Control-Max-Age", "86400")]
  if !(jsTruthy requestOrigin) then
    headerSet headers "Access-Control-Allow-Origin" "*"
  else
    let origin := requestOrigin.getD ""
    if allowedOrigins.contains "*" || allowedOrigins.contains origin then
      headerSet (headerSet headers "Access-Control-Allow-Origin" origin) "Vary" "Origin"
    else
      headers

/-- The `OPTIONS` preflight route of `src/unnamed/part_001`: 403 with no
headers when `getCorsHeaders` produced no `Access-Control-Allow-Origin`,
otherwise 204 with the CORS headers. -/
def optionsHandler (allowedOrigins : List String) (origin : Option String) :
    Nat × List (String × String) :=
  let corsHeaders := getCorsHeaders allowedOrigins origin
  if !((headerGet corsHeaders "Access-Control-Allow-Origin").isSome) then (403, [])
  else (204, corsHeaders)

/-- The filtering step of the `GET /v1/models` route of
`src/unnamed/part_001`: keep only the models whose lowercased id contains
none of the blacklist keywords. -/
def filterModels (data : List ModelData) : List ModelData :=
  data.filter (fun model =>
    !(MODEL_BLACKLIST.any (fun keyword => jsIncludes (jsToLower model.id) keyword)))

/-- The body of a catalog response of `src/unnamed/part_001`: the filtered
list when the upstream body had a `data` array, the upstream body passed
through unchanged when it did not, or the literal fetch-error object from the
`catch` block. -/
inductive ModelsResponseBody where
  | list (data : List ModelData)
  | passthrough (b : ModelsBody)
  | fetchErrorBody

/-- The `GET /v1/models` route of `src/unnamed/part_001`.  There is no cache
in this variant: every call issues exactly one upstream request (the second
component counts them).  A non-`ok` status or transport error is caught and
answered with 500; a body whose `data` field is missing or not an array skips
the filter and is returned as-is with 200. -/
def modelsHandler (u : UpstreamResult) : (Nat × ModelsResponseBody) × Nat :=
  match u with
  | .fetchError => ((500, .fetchErrorBody), 1)
  | .httpResponse false _ => ((500, .fetchErrorBody), 1)
  | .httpResponse true (.withData data) => ((200, .list (filterModels data)), 1)
  | .httpResponse true b => ((200, .passthrough b), 1)

/-- `getUpstreamHeaders` of `src/unnamed/part_001`, called with no argument
as in both of its call sites (the optional `originalHeaders` parameter copies
an incoming `Accept: text/event-stream` and is unused in this file). -/
def getUpstreamHeaders : List (String × String) :=
  [("User-Agent", "Mozilla/5.0 (Windows NT 10.0; Win64; x64) AppleWebKit/537.36 (KHTML, like Gecko) Chrome/133.0.0.0 Safari/537.36"),
   ("Accept", "application/json"),
   ("Content-Type", "application/json"),
   ("Origin", "https://deepinfra.com"),
   ("Referer", "https://deepinfra.com/")]

/-- The headers sent with the upstream chat request in
`src/unnamed/part_001`: `Accept` is overridden to `text/event-stream`
exactly when `body.stream` is truthy. -/
def chatUpstreamHeaders (stream : Bool) : List (String × String) :=
  if stream then headerSet getUpstreamHeaders "Accept" "text/event-stream"
  else getUpstreamHeaders

/-- The mocked `chat.completion` object returned by `src/unnamed/part_001`
for a blacklisted model (`created` is `Date.now()`). -/
def mockChatCompletion (now : Nat) (model : String) : Json :=
  Json.obj [("id", Json.str "chatcmpl-mock-blocked"),
            ("object", Json.str "chat.completion"),
            ("created", Json.num now),
            ("model", Json.str model),
            ("choices", Json.arr [Json.obj [
              ("index", Json.num 0),
              ("message", Json.obj [("role", Json.str "assistant"),
                ("content", Json.str "[System] This model is not available for text chat.")]),
              ("finish_reason", Json.str "stop")]])]

/-- The `POST /v1/chat/completions` route of `src/unnamed/part_001` after
routing.  The auth check only requires a truthy header starting with
`Bearer ` (the token itself is never compared against a key); its failure
body has type `auth_error` and no `code` field.  A truthy blacklisted model
is answered locally with the 200 mock; any caught error is answered with the
literal body carrying the string `Internal Proxy Error`, discarding the
thrown message. -/
def chatHandler (authHeader : Option String) (now : Nat)
    (bodyResult : Except String ChatRequest)
    (upstream : Except String UpstreamChatResponse) :
    Nat × ResponseBody × Bool :=
  if !(jsTruthy authHeader) || !(jsStartsWith (authHeader.getD "") "Bearer ") then
    (401, .json (Json.obj [("error", Json.obj [("message", Json.str "Invalid API Key"),
                                               ("type", Json.str "auth_error")])]), false)
  else
    match bodyResult with
    | Except.error _ => (500, .json (Json.obj [("error", Json.str "Internal Proxy Error")]), false)
    | Except.ok body =>
        if jsTruthy body.model
            && MODEL_BLACKLIST.any (fun kw => jsIncludes (jsToLower (body.model.getD "")) kw) then
          (200, .json (mockChatCompletion now (body.model.getD "")), false)
        else
          match upstream with
          | Except.error _ =>
              (500, .json (Json.obj [("error", Json.str "Internal Proxy Error")]), true)
          | Except.ok r => (r.status, .stream r.body, true)

end Part001

namespace Part002

/-- `validateApiKey` of `src/unnamed/part_002` (takes the nullable header
directly). -/
def validateApiKey (apiKey : String) (authHeader : Option String) : Bool :=
  if !(jsTruthy authHeader) || !(jsStartsWith (authHeader.getD "") "Bearer ") then false
  else jsSlice (authHeader.getD "") 7 == apiKey

/-- A value held by the cache of `src/unnamed/part_002`.  Because this
variant stores `data.data` without validating it, the cache can also hold a
truthy non-array value. -/
inductive CachedVal where
  | models (l : List ModelData)
  | notArray
deriving DecidableEq

/-- The cache of `src/unnamed/part_002`. -/
structure Cache where
  cachedSourceData : Option CachedVal
  cacheTimestamp : Option Nat
deriving DecidableEq

/-- The `try`/`catch` body of `getModelsData` in `src/unnamed/part_002`,
reached on a cache miss.  There is no structure check: `data.data` is
assigned to the cache and the timestamp is updated before the subsequent
`.length` access.  When `data.data` is missing, the cache therefore becomes
`undefined` and the timestamp is still updated; the `.length` access on
`undefined` then throws, and the `catch` block rethrows because the (now
falsy) cache cannot serve as a fallback.  When `data.data` is a truthy
non-array, it is stored and returned as a success. -/
def refreshModels (st : Cache) (now : Nat) (u : UpstreamResult) :
    Except Unit CachedVal × Cache × Bool :=
  match u with
  | .httpResponse true (.withData data) =>
      (Except.ok (.models data), ⟨some (.models data), some now⟩, true)
  | .httpResponse true .missingData =>
      (Except.error (), ⟨none, some now⟩, true)
  | .httpResponse true .dataNotArray =>
      (Except.ok .notArray, ⟨some .notArray, some now⟩, true)
  | _ =>
      match st.cachedSourceData with
      | some d => (Except.ok d, st, true)
      | none => (Except.error (), st, true)

/-- `getModelsData` of `src/unnamed/part_002`: same freshness guard as in
`src/index.ts`, refresh via `refreshModels` on a miss. -/
def getModelsData (st : Cache) (now : Nat) (u : UpstreamResult) :
    Except Unit CachedVal × Cache × Bool :=
  match st.cachedSourceData, st.cacheTimestamp with
  | some cached, some t =>
      if t != 0 && decide (now - t < CACHE_TTL) then (Except.ok cached, st, false)
      else refreshModels st now u
  | _, _ => refreshModels st now u

end Part002

/-- A concrete text-model record used to instantiate the theorems below. -/
def mLlama : ModelData :=
  ⟨"meta-llama/Meta-Llama-3-70B-Instruct", "model", 1700000000, "deepinfra"⟩

/-- A concrete record whose id contains the blacklist keyword `whisper`. -/
def mWhisper : ModelData :=
  ⟨"openai/whisper-large-v3", "model", 1700000000, "deepinfra"⟩

/-! ### Helper lemmas -/

/-- Characterization of the shared bearer-token check: it accepts exactly the
concatenation of the literal `Bearer ` prefix and the configured key. -/
theorem jsBearer_check_iff (key h : String) :
    (jsStartsWith h "Bearer " && (jsSlice h 7 == key)) = true ↔ h = "Bearer " ++ key := by
  constructor
  · intro hv
    rw [Bool.and_eq_true] at hv
    obtain ⟨h1, h2⟩ := hv
    simp only [jsStartsWith, beq_iff_eq] at h1
    simp only [jsSlice, beq_iff_eq] at h2
    have h1' : h.data.take 7 = "Bearer ".data := h1
    have hdrop : h.data.drop 7 = key.data := congrArg String.data h2
    apply String.ext
    rw [String.data_append]
    calc h.data = h.data.take 7 ++ h.data.drop 7 := (List.take_append_drop 7 h.data).symm
      _ = "Bearer ".data ++ key.data := by rw [h1', hdrop]
  · intro hv
    subst hv
    have hdata : ("Bearer " ++ key).data = "Bearer ".data ++ key.data := String.data_append _ _
    rw [Bool.and_eq_true]
    constructor
    · simp only [jsStartsWith, beq_iff_eq, hdata]
      exact List.take_left "Bearer ".data key.data
    · simp only [jsSlice, beq_iff_eq, hdata]
      apply String.ext
      exact List.drop_left "Bearer ".data key.data

/-- `validateApiKey` of `src/index.ts` written as a single boolean
conjunction. -/
theorem validateApiKey_eq (key g : String) :
    IndexTs.validateApiKey key g = (jsStartsWith g "Bearer " && (jsSlice g 7 == key)) := by
  unfold IndexTs.validateApiKey
  cases hs : jsStartsWith g "Bearer " <;> simp [hs]

/-- Every branch of the part_001 catalog route issues exactly one upstream
request: this variant has no cache. -/
theorem part001_always_fetches (u : UpstreamResult) : (Part001.modelsHandler u).2 = 1 := by
  rcases u with _ | ⟨ok, body⟩
  · rfl
  · cases ok <;> cases body <;> rfl

/-! ### C1: catalog calls within the TTL window -/

/-- Claim C1, counterexample: the origin-whitelist variant
(`src/unnamed/part_001`, cited by the claim as the GET models handler) has no
cache at all, so two catalog calls within one TTL window issue two upstream
requests, not exactly one as the claim states. -/
theorem c1_part001_two_calls_two_fetches :
    (Part001.modelsHandler (.httpResponse true (.withData [mLlama]))).2
      + (Part001.modelsHandler (.httpResponse true (.withData [mLlama]))).2 = 2
    ∧ (2 : Nat) ≠ 1 :=
  ⟨rfl, by decide⟩

/-- Claim C1, amended: in the cached variant (`getModelsData` of
`src/index.ts`), a call made while a snapshot exists whose timestamp is
truthy and whose age is strictly below the 60s TTL returns that snapshot
unchanged and performs no upstream fetch, so an initial successful call
followed by a second call within one TTL window issues exactly one upstream
request in total; the origin-whitelist variant `src/unnamed/part_001` has no
cache and issues one upstream request on every catalog call. -/
theorem c1_fresh_cache_no_fetch :
    (∀ (st : CacheState) (now : Nat) (u : UpstreamResult) (d : List ModelData) (t : Nat),
      st.cachedSourceData = some d → st.cacheTimestamp = some t → t ≠ 0 →
      now - t < CACHE_TTL →
      IndexTs.getModelsData st now u = (Except.ok d, st, false))
    ∧ (∀ (now1 now2 : Nat) (data : List ModelData) (u2 : UpstreamResult),
      now1 ≠ 0 → now2 - now1 < CACHE_TTL →
      fetchCount (IndexTs.getModelsData ⟨none, none⟩ now1 (.httpResponse true (.withData data)))
        + fetchCount (IndexTs.getModelsData
            (IndexTs.getModelsData ⟨none, none⟩ now1 (.httpResponse true (.withData data))).2.1
            now2 u2) = 1)
    ∧ (∀ u1 u2 : UpstreamResult,
        (Part001.modelsHandler u1).2 + (Part001.modelsHandler u2).2 = 2) := by
  refine ⟨?_, ?_, ?_⟩
  · intro st now u d t hd ht ht0 httl
    obtain ⟨cd, cts⟩ := st
    simp only at hd ht
    subst hd; subst ht
    simp [IndexTs.getModelsData, ht0, httl]
  · intro now1 now2 data u2 h1 h2
    simp [IndexTs.getModelsData, IndexTs.refreshModels, fetchCount, h1, h2]
  · intro u1 u2
    rw [part001_always_fetches u1, part001_always_fetches u2]

/-- Claim C1, witness: a fresh cache hit at age 5ms serves the cached list
with no fetch, and a successful first call followed by a call 1000ms later
issues exactly one upstream request. -/
theorem c1_witness :
    IndexTs.getModelsData ⟨some [mLlama], some 5⟩ 10 UpstreamResult.fetchError
      = (Except.ok [mLlama], ⟨some [mLlama], some 5⟩, false)
    ∧ fetchCount (IndexTs.getModelsData ⟨none, none⟩ 1000
          (.httpResponse true (.withData [mLlama])))
        + fetchCount (IndexTs.getModelsData
            (IndexTs.getModelsData ⟨none, none⟩ 1000
              (.httpResponse true (.withData [mLlama]))).2.1
            2000 UpstreamResult.fetchError) = 1 :=
  ⟨c1_fresh_cache_no_fetch.1 ⟨some [mLlama], some 5⟩ 10 UpstreamResult.fetchError [mLlama] 5
      rfl rfl (by decide) (by decide),
   c1_fresh_cache_no_fetch.2.1 1000 2000 [mLlama] UpstreamResult.fetchError
      (by decide) (by decide)⟩

/-! ### C2: failed refresh, stale fallback and 500 -/

/-- Claim C2, counterexample: in `src/unnamed/part_001` (cited by the claim
for the catalog endpoint) an upstream body lacking the `data` array is a
failed refresh by the claim, yet the endpoint answers 200 with the body
passed through unchanged instead of 500 (this variant never has a snapshot). -/
theorem c2_part001_invalid_body_200 :
    Part001.modelsHandler (.httpResponse true .missingData)
      = ((200, .passthrough .missingData), 1)
    ∧ (200 : Nat) ≠ 500 :=
  ⟨rfl, by decide⟩

/-- Claim C2, amended: in `src/index.ts`, every failed refresh (transport
error, non-ok status or invalid body) returns the previously fetched
snapshot with HTTP 200 and an unchanged cache when one exists, and
propagates the failure as HTTP 500 when none exists; in
`src/unnamed/part_001` a transport error or non-ok status also yields
HTTP 500 (an invalid body there is passed through with 200, per the
counterexample). -/
theorem c2_stale_fallback_or_500 :
    (∀ (d : List ModelData) (t now : Nat) (u : UpstreamResult),
      isModelsSuccess u = false →
      (t != 0 && decide (now - t < CACHE_TTL)) = false →
      IndexTs.getModelsData ⟨some d, some t⟩ now u = (Except.ok d, ⟨some d, some t⟩, true)
      ∧ IndexTs.modelsEndpoint ⟨some d, some t⟩ now u
          = ((200, listBody d), ⟨some d, some t⟩, true))
    ∧ (∀ (ts : Option Nat) (now : Nat) (u : UpstreamResult),
      isModelsSuccess u = false →
      IndexTs.getModelsData ⟨none, ts⟩ now u = (Except.error (), ⟨none, ts⟩, true)
      ∧ IndexTs.modelsEndpoint ⟨none, ts⟩ now u
          = ((500, errorEnvelope "Failed to get models" "server_error" 500), ⟨none, ts⟩, true))
    ∧ (∀ b : ModelsBody,
      Part001.modelsHandler .fetchError = ((500, .fetchErrorBody), 1)
      ∧ Part001.modelsHandler (.httpResponse false b) = ((500, .fetchErrorBody), 1)) := by
  refine ⟨?_, ?_, ?_⟩
  · intro d t now u hsucc hfresh
    have hg : IndexTs.getModelsData ⟨some d, some t⟩ now u
        = (Except.ok d, ⟨some d, some t⟩, true) := by
      rcases u with _ | ⟨ok, body⟩
      · simp [IndexTs.getModelsData, hfresh, IndexTs.refreshModels]
      · cases ok <;> cases body <;>
          simp_all [IndexTs.getModelsData, hfresh, IndexTs.refreshModels, isModelsSuccess]
    exact ⟨hg, by simp [IndexTs.modelsEndpoint, hg]⟩
  · intro ts now u hsucc
    have hg : IndexTs.getModelsData ⟨none, ts⟩ now u = (Except.error (), ⟨none, ts⟩, true) := by
      rcases u with _ | ⟨ok, body⟩
      · simp [IndexTs.getModelsData, IndexTs.refreshModels]
      · cases ok <;> cases body <;>
          simp_all [IndexTs.getModelsData, IndexTs.refreshModels, isModelsSuccess]
    exact ⟨hg, by simp [IndexTs.modelsEndpoint, hg]⟩
  · intro b
    exact ⟨rfl, rfl⟩

/-- Claim C2, witness: a stale cache holding one record survives a transport
error and is served with 200, while an empty cache turns the same error into
the 500 envelope. -/
theorem c2_witness :
    IndexTs.modelsEndpoint ⟨some [mLlama], some 5⟩ 70000 UpstreamResult.fetchError
      = ((200, listBody [mLlama]), ⟨some [mLlama], some 5⟩, true)
    ∧ IndexTs.modelsEndpoint ⟨none, none⟩ 0 UpstreamResult.fetchError
      = ((500, errorEnvelope "Failed to get models" "server_error" 500), ⟨none, none⟩, true) :=
  ⟨(c2_stale_fallback_or_500.1 [mLlama] 5 70000 UpstreamResult.fetchError rfl (by decide)).2,
   (c2_stale_fallback_or_500.2.1 none 0 UpstreamResult.fetchError rfl).2⟩

/-! ### C3: invalid upstream body treated as fetch failure -/

/-- Claim C3, counterexample: in `src/unnamed/part_002` (cited by the claim)
an upstream body whose `data` field is missing is assigned to the cache
before any check, so a previously cached snapshot is destroyed and the
timestamp is updated even though the error path is then taken: the cache and
its timestamp are not left unchanged. -/
theorem c3_part002_cache_clobbered :
    Part002.getModelsData ⟨some (.models [mLlama]), some 5⟩ 70000
        (.httpResponse true .missingData)
      = (Except.error (), ⟨none, some 70000⟩, true)
    ∧ (⟨none, some 70000⟩ : Part002.Cache) ≠ ⟨some (.models [mLlama]), some 5⟩ :=
  ⟨rfl, by decide⟩

/-- Claim C3, amended: in `src/index.ts` (whose `getModelsData` validates the
body), a refresh whose upstream body lacks the `data` array or carries a
non-array value takes the error path of a fetch failure — stale fallback or
propagation — and leaves the cache and its timestamp unchanged;
`src/unnamed/part_002` lacks this validation and overwrites the cache before
failing, per the counterexample. -/
theorem c3_invalid_body_is_failure (st : CacheState) (now : Nat) (u : UpstreamResult)
    (hbad : u = .httpResponse true .missingData ∨ u = .httpResponse true .dataNotArray) :
    IndexTs.refreshModels st now u =
      ((match st.cachedSourceData with
        | some d => Except.ok d
        | none => Except.error ()), st, true) := by
  rcases hbad with h | h <;> subst h <;> rcases st with ⟨cd, ts⟩ <;> cases cd <;> rfl

/-- Claim C3, witness: a refresh of `src/index.ts` seeing a body without the
`data` array falls back to the cached record and leaves the state unchanged. -/
theorem c3_witness :
    IndexTs.refreshModels ⟨some [mLlama], some 7⟩ 70000 (.httpResponse true .missingData)
      = (Except.ok [mLlama], ⟨some [mLlama], some 7⟩, true) :=
  c3_invalid_body_is_failure ⟨some [mLlama], some 7⟩ 70000
    (.httpResponse true .missingData) (Or.inl rfl)

/-! ### C4: authentication of chat requests -/

/-- Claim C4, counterexample: the chat handler of `src/unnamed/part_001`
(cited by the claim) never compares the bearer token against the configured
key — a wrong token prefixed with `Bearer ` is forwarded upstream with the
upstream status returned instead of 401 — and its missing-header rejection
uses type `auth_error`, not `authentication_error`. -/
theorem c4_part001_token_not_checked :
    Part001.chatHandler (some "Bearer totally-wrong-key") 0
        (Except.ok ⟨some "meta-llama/Meta-Llama-3-70B-Instruct", false⟩)
        (Except.ok ⟨200, "upstream-bytes"⟩)
      = (200, ResponseBody.stream "upstream-bytes", true)
    ∧ (200 : Nat) ≠ 401
    ∧ Part001.chatHandler none 0 (Except.ok ⟨some "gpt", false⟩) (Except.ok ⟨200, "b"⟩)
      = (401, ResponseBody.json (Json.obj [("error",
          Json.obj [("message", Json.str "Invalid API Key"),
                    ("type", Json.str "auth_error")])]), false)
    ∧ "auth_error" ≠ "authentication_error" :=
  ⟨rfl, by decide, rfl, by decide⟩

/-- Claim C4, amended: in `src/index.ts` (and the other key-validating
variants), every chat request with a falsy Authorization header, or whose
header fails `validateApiKey` against the configured key, is answered 401
with an error body of type `authentication_error` and no upstream request is
issued; the `src/unnamed/part_001` variant only rejects headers lacking the
`Bearer ` prefix and does so with type `auth_error`, per the counterexample. -/
theorem c4_auth_401_no_upstream (apiKey : String) (authHeader : Option String)
    (bodyResult : Except String ChatRequest) (upstream : Except String UpstreamChatResponse) :
    (jsTruthy authHeader = false →
      IndexTs.chatHandler apiKey authHeader bodyResult upstream
        = (401, .json (errorEnvelope "Missing Authorization header" "authentication_error" 401),
           false))
    ∧ (∀ h, authHeader = some h → jsTruthy authHeader = true →
      IndexTs.validateApiKey apiKey h = false →
      IndexTs.chatHandler apiKey authHeader bodyResult upstream
        = (401, .json (errorEnvelope "Invalid API key" "authentication_error" 401), false)) := by
  constructor
  · intro hT
    simp [IndexTs.chatHandler, hT]
  · intro h hh hT hv
    subst hh
    simp [IndexTs.chatHandler, hT, hv]

/-- Claim C4, witness: with configured key `secret-key`, a missing header and
the wrong token `Bearer wrong` are both answered 401 with type
`authentication_error` and no upstream call. -/
theorem c4_witness :
    IndexTs.chatHandler "secret-key" none (Except.ok ⟨some "gpt", false⟩)
        (Except.ok ⟨200, "b"⟩)
      = (401, .json (errorEnvelope "Missing Authorization header" "authentication_error" 401),
         false)
    ∧ IndexTs.chatHandler "secret-key" (some "Bearer wrong") (Except.ok ⟨some "gpt", false⟩)
        (Except.ok ⟨200, "b"⟩)
      = (401, .json (errorEnvelope "Invalid API key" "authentication_error" 401), false) :=
  ⟨(c4_auth_401_no_upstream "secret-key" none (Except.ok ⟨some "gpt", false⟩)
      (Except.ok ⟨200, "b"⟩)).1 rfl,
   (c4_auth_401_no_upstream "secret-key" (some "Bearer wrong") (Except.ok ⟨some "gpt", false⟩)
      (Except.ok ⟨200, "b"⟩)).2 "Bearer wrong" rfl (by decide) (by decide)⟩

/-! ### C5: keyword filtering of the model catalog -/

/-- Claim C5: in both filtering variants a record survives the catalog filter
exactly when its lowercased id contains none of the blacklist keywords as a
substring, the filtered list is a sublist of the upstream list (relative
order preserved), and any record whose id contains `whisper` is absent from
the part_001 response. -/
theorem c5_filter_iff_and_order (data : List ModelData) (m : ModelData) :
    (m ∈ IndexTs.filterModels data ↔
      m ∈ data ∧ (IndexTs.EXCLUDED_MODEL_KEYWORDS.any
        (fun keyword => jsIncludes (jsToLower m.id) keyword)) = false)
    ∧ (m ∈ Part001.filterModels data ↔
      m ∈ data ∧ (Part001.MODEL_BLACKLIST.any
        (fun keyword => jsIncludes (jsToLower m.id) keyword)) = false)
    ∧ (IndexTs.filterModels data).Sublist data
    ∧ (Part001.filterModels data).Sublist data
    ∧ (jsIncludes (jsToLower m.id) "whisper" = true → m ∉ Part001.filterModels data) := by
  refine ⟨?_, ?_, List.filter_sublist data, List.filter_sublist data, ?_⟩
  · simp [IndexTs.filterModels, List.mem_filter]
  · simp [Part001.filterModels, List.mem_filter]
  · intro hw hmem
    rw [Part001.filterModels, List.mem_filter] at hmem
    obtain ⟨-, hp⟩ := hmem
    simp only [Bool.not_eq_true'] at hp
    rw [List.any_eq_false] at hp
    have hws : "whisper" ∈ Part001.MODEL_BLACKLIST := by decide
    exact (hp "whisper" hws) hw

/-- Claim C5, witness: the Llama record survives the `src/index.ts` filter
and the whisper record is absent from the part_001 response. -/
theorem c5_witness :
    mLlama ∈ IndexTs.filterModels [mLlama]
    ∧ mWhisper ∉ Part001.filterModels [mWhisper] :=
  ⟨(c5_filter_iff_and_order [mLlama] mLlama).1.mpr ⟨by decide, by decide⟩,
   (c5_filter_iff_and_order [mWhisper] mWhisper).2.2.2.2 (by decide)⟩

/-! ### C6: origin-whitelist CORS preflight -/

/-- Claim C6: in `src/unnamed/part_001`, a preflight with a whitelisted
origin (or with a wildcard whitelist) is answered 204 with
`Access-Control-Allow-Origin` echoing that origin and `Vary: Origin`; a
preflight whose origin is absent from a non-wildcard whitelist is answered
403 with no headers at all; a preflight without an Origin header is answered
204 with `Access-Control-Allow-Origin` set to the wildcard. -/
theorem c6_preflight_whitelist (allowedOrigins : List String) (origin : String)
    (hne : origin ≠ "") :
    ((allowedOrigins.contains "*" || allowedOrigins.contains origin) = true →
      Part001.optionsHandler allowedOrigins (some origin)
        = (204, Part001.getCorsHeaders allowedOrigins (some origin))
      ∧ headerGet (Part001.getCorsHeaders allowedOrigins (some origin))
          "Access-Control-Allow-Origin" = some origin
      ∧ headerGet (Part001.getCorsHeaders allowedOrigins (some origin)) "Vary" = some "Origin")
    ∧ ((allowedOrigins.contains "*" || allowedOrigins.contains origin) = false →
      Part001.optionsHandler allowedOrigins (some origin) = (403, []))
    ∧ ((Part001.optionsHandler allowedOrigins none).1 = 204
      ∧ headerGet (Part001.optionsHandler allowedOrigins none).2
          "Access-Control-Allow-Origin" = some "*") := by
  have htr : jsTruthy (some origin) = true := by simp [jsTruthy, hne]
  have hbase : Part001.getCorsHeaders allowedOrigins none
      = [("Access-Control-Allow-Methods", "GET, POST, OPTIONS, PUT, DELETE"),
         ("Access-Control-Allow-Headers", "Content-Type, Authorization, X-Requested-With, Accept, Origin, User-Agent, sec-ch-ua, sec-ch-ua-mobile, sec-ch-ua-platform, Referer"),
         ("Access-Control-Max-Age", "86400"),
         ("Access-Control-Allow-Origin", "*")] := by
    simp only [Part001.getCorsHeaders]
    simp +decide [jsTruthy, headerSet, hdrNameEq]
  refine ⟨?_, ?_, ?_⟩
  · intro hall
    have hcors : Part001.getCorsHeaders allowedOrigins (some origin)
        = [("Access-Control-Allow-Methods", "GET, POST, OPTIONS, PUT, DELETE"),
           ("Access-Control-Allow-Headers", "Content-Type, Authorization, X-Requested-With, Accept, Origin, User-Agent, sec-ch-ua, sec-ch-ua-mobile, sec-ch-ua-platform, Referer"),
           ("Access-Control-Max-Age", "86400"),
           ("Access-Control-Allow-Origin", origin),
           ("Vary", "Origin")] := by
      simp only [Part001.getCorsHeaders, Option.getD_some]
      rw [htr, hall]
      simp +decide [headerSet, hdrNameEq]
    refine ⟨?_, ?_, ?_⟩
    · rw [hcors]
      simp +decide [Part001.optionsHandler, hcors, headerGet, hdrNameEq]
    · rw [hcors]
      simp +decide [headerGet, hdrNameEq]
    · rw [hcors]
      simp +decide [headerGet, hdrNameEq]
  · intro hnall
    have hcors : Part001.getCorsHeaders allowedOrigins (some origin)
        = [("Access-Control-Allow-Methods", "GET, POST, OPTIONS, PUT, DELETE"),
           ("Access-Control-Allow-Headers", "Content-Type, Authorization, X-Requested-With, Accept, Origin, User-Agent, sec-ch-ua, sec-ch-ua-mobile, sec-ch-ua-platform, Referer"),
           ("Access-Control-Max-Age", "86400")] := by
      simp only [Part001.getCorsHeaders, Option.getD_some]
      rw [htr, hnall]
      simp
    simp +decide [Part001.optionsHandler, hcors, headerGet, hdrNameEq]
  · constructor
    · simp +decide [Part001.optionsHandler, hbase, headerGet, hdrNameEq]
    · simp +decide [Part001.optionsHandler, hbase, headerGet, hdrNameEq]

/-- Claim C6, witness: with a one-origin whitelist, the matching origin gets
204 with the echoed origin and `Vary: Origin`, and a different origin gets
403 with no headers. -/
theorem c6_witness :
    Part001.optionsHandler ["https://app.example.com"] (some "https://app.example.com")
      = (204, Part001.getCorsHeaders ["https://app.example.com"]
          (some "https://app.example.com"))
    ∧ headerGet (Part001.getCorsHeaders ["https://app.example.com"]
        (some "https://app.example.com")) "Vary" = some "Origin"
    ∧ Part001.optionsHandler ["https://app.example.com"] (some "https://evil.example.com")
      = (403, []) :=
  ⟨((c6_preflight_whitelist ["https://app.example.com"] "https://app.example.com"
      (by decide)).1 (by decide)).1,
   ((c6_preflight_whitelist ["https://app.example.com"] "https://app.example.com"
      (by decide)).1 (by decide)).2.2,
   (c6_preflight_whitelist ["https://app.example.com"] "https://evil.example.com"
      (by decide)).2.1 (by decide)⟩

/-! ### C7: Accept header of the outbound chat request -/

/-- Claim C7, counterexample: the chat handler of `src/unnamed/part_000`
(cited by the claim) sets the outbound Accept header to `text/event-stream`
unconditionally, so a request that did not ask for streaming still gets the
event-stream Accept header rather than `application/json`. -/
theorem c7_part000_always_event_stream :
    headerGet (Part000.chatUpstreamHeaders ⟨some "meta-llama/Meta-Llama-3-70B", false⟩)
        "Accept"
      = some "text/event-stream"
    ∧ "text/event-stream" ≠ "application/json" :=
  ⟨by decide, by decide⟩

/-- Claim C7, amended: in `src/index.ts` and `src/unnamed/part_001` the
outbound upstream Accept header is `text/event-stream` exactly when the
request body asked for streaming and `application/json` otherwise;
`src/unnamed/part_000` always sends `text/event-stream`, per the
counterexample. -/
theorem c7_accept_iff_stream (stream : Bool) :
    headerGet (IndexTs.chatUpstreamHeaders stream) "Accept"
      = some (if stream then "text/event-stream" else "application/json")
    ∧ headerGet (Part001.chatUpstreamHeaders stream) "Accept"
      = some (if stream then "text/event-stream" else "application/json") := by
  cases stream <;> exact ⟨by decide, by decide⟩

/-! ### C8: error envelope shape -/

/-- Claim C8, counterexample: in `src/unnamed/part_001` (cited by the claim)
a caught chat error is answered 500 with the body holding the bare string
`Internal Proxy Error` under `error` — not the message/type/code envelope —
and the thrown message (`boom` here) is discarded rather than propagated. -/
theorem c8_part001_nonenvelope_error :
    Part001.chatHandler (some "Bearer any-key") 0 (Except.error "boom")
        (Except.ok ⟨200, "b"⟩)
      = (500, ResponseBody.json (Json.obj [("error", Json.str "Internal Proxy Error")]), false)
    ∧ isErrorEnvelope (Json.obj [("error", Json.str "Internal Proxy Error")]) 500 = false
    ∧ "Internal Proxy Error" ≠ "boom" :=
  ⟨rfl, rfl, by decide⟩

/-- Claim C8, amended: in `src/index.ts`, a chat request on which body
parsing or the upstream call throws is answered 500 with the envelope
carrying the thrown message, type `server_error` and code 500; every
`errorEnvelope` body mirrors its code, and the locally generated error
responses of this variant (404 route fallback, catalog 500) are envelopes
mirroring their status; `src/unnamed/part_001` uses bare-string error bodies
instead, per the counterexample. -/
theorem c8_error_envelope (apiKey : String) (authHeader : Option String)
    (h0 : jsTruthy authHeader = true)
    (hv : IndexTs.validateApiKey apiKey (authHeader.getD "") = true) :
    (∀ (msg : String) (upstream : Except String UpstreamChatResponse),
      IndexTs.chatHandler apiKey authHeader (Except.error msg) upstream
        = (500, .json (errorEnvelope msg "server_error" 500), false))
    ∧ (∀ (body : ChatRequest) (msg : String),
      IndexTs.chatHandler apiKey authHeader (Except.ok body) (Except.error msg)
        = (500, .json (errorEnvelope msg "server_error" 500), true))
    ∧ (∀ (msg ty : String) (code : Nat),
        isErrorEnvelope (errorEnvelope msg ty code) code = true)
    ∧ (∀ path : String,
        isErrorEnvelope (IndexTs.notFoundResponse path).2 (IndexTs.notFoundResponse path).1
          = true)
    ∧ (∀ (st : CacheState) (now : Nat) (u : UpstreamResult),
        (IndexTs.modelsEndpoint st now u).1.1 = 500 →
          isErrorEnvelope (IndexTs.modelsEndpoint st now u).1.2 500 = true) := by
  refine ⟨?_, ?_, ?_, ?_, ?_⟩
  · intro msg upstream
    simp [IndexTs.chatHandler, h0, hv]
  · intro body msg
    simp [IndexTs.chatHandler, h0, hv]
  · intro msg ty code
    simp [errorEnvelope, isErrorEnvelope]
  · intro path
    simp [IndexTs.notFoundResponse, errorEnvelope, isErrorEnvelope]
  · intro st now u
    rcases hg : IndexTs.getModelsData st now u with ⟨res, st2, f⟩
    cases res <;> simp [IndexTs.modelsEndpoint, hg, errorEnvelope, isErrorEnvelope]

/-- Claim C8, witness: an authorized request whose body parsing throws
`boom` is answered with the 500 envelope carrying that message. -/
theorem c8_witness :
    IndexTs.chatHandler "secret-key" (some "Bearer secret-key") (Except.error "boom")
        (Except.ok ⟨200, "b"⟩)
      = (500, .json (errorEnvelope "boom" "server_error" 500), false) :=
  (c8_error_envelope "secret-key" (some "Bearer secret-key") (by decide) (by decide)).1
    "boom" (Except.ok ⟨200, "b"⟩)

/-! ### C9: blacklisted models are mocked locally -/

/-- Claim C9: in `src/unnamed/part_001`, an authorized chat request whose
model id (lowercased) contains a blacklist keyword is answered 200 with the
locally fabricated `chatcmpl-mock-blocked` completion — single choice,
assistant message saying the model is not available for text chat,
finish_reason `stop` — and no upstream request is issued. -/
theorem c9_blacklist_mock (authHeader : Option String) (now : Nat) (m : String)
    (body : ChatRequest) (upstream : Except String UpstreamChatResponse)
    (hT : jsTruthy authHeader = true)
    (hB : jsStartsWith (authHeader.getD "") "Bearer " = true)
    (hm : body.model = some m)
    (hkw : Part001.MODEL_BLACKLIST.any (fun kw => jsIncludes (jsToLower m) kw) = true) :
    Part001.chatHandler authHeader now (Except.ok body) upstream
      = (200, .json (Part001.mockChatCompletion now m), false) := by
  have hm' : (m == "") = false := by
    rcases hb : (m == "") with _ | _
    · rfl
    · rw [beq_iff_eq] at hb
      subst hb
      exact absurd hkw (by decide)
  have hmm : jsTruthy (some m) = true := by simp [jsTruthy, hm']
  simp [Part001.chatHandler, hT, hB, hm, hkw, hmm]

/-- Claim C9, witness: a whisper model id triggers the local mock with no
upstream call. -/
theorem c9_witness :
    Part001.chatHandler (some "Bearer k") 12345
        (Except.ok ⟨some "openai/whisper-large-v3", false⟩) (Except.ok ⟨200, "b"⟩)
      = (200, .json (Part001.mockChatCompletion 12345 "openai/whisper-large-v3"), false) :=
  c9_blacklist_mock (some "Bearer k") 12345 "openai/whisper-large-v3"
    ⟨some "openai/whisper-large-v3", false⟩ (Except.ok ⟨200, "b"⟩)
    (by decide) (by decide) rfl (by decide)

/-! ### C10: exact bearer-prefix key validation -/

/-- Claim C10: `validateApiKey` (in `src/index.ts` and, on a present header,
`src/unnamed/part_002`) accepts a header exactly when it is the
case-sensitive 7-character prefix `Bearer ` followed verbatim by the
configured key; the lowercase spelling `bearer ` and an extra space after
the prefix are both rejected even though the embedded token equals the key. -/
theorem c10_bearer_exact_match (key h : String) :
    (IndexTs.validateApiKey key h = true ↔ h = "Bearer " ++ key)
    ∧ (Part002.validateApiKey key (some h) = IndexTs.validateApiKey key h)
    ∧ Part002.validateApiKey key none = false
    ∧ IndexTs.validateApiKey key ("bearer " ++ key) = false
    ∧ IndexTs.validateApiKey key ("Bearer  " ++ key) = false := by
  refine ⟨?_, ?_, ?_, ?_, ?_⟩
  · rw [validateApiKey_eq]
    exact jsBearer_check_iff key h
  · by_cases hh : h = ""
    · subst hh
      simp [Part002.validateApiKey, IndexTs.validateApiKey, jsTruthy,
        show jsStartsWith "" "Bearer " = false from by decide]
    · have ht : jsTruthy (some h) = true := by
        simp [jsTruthy, hh]
      cases hs : jsStartsWith h "Bearer " <;>
        simp [Part002.validateApiKey, IndexTs.validateApiKey, ht, hs]
  · simp [Part002.validateApiKey, jsTruthy]
  · rw [Bool.eq_false_iff, validateApiKey_eq, Ne, jsBearer_check_iff]
    intro he
    have hd := congrArg String.data he
    rw [String.data_append, String.data_append] at hd
    have hh := congrArg (fun l => l.headD ' ') hd
    simp at hh
  · rw [Bool.eq_false_iff, validateApiKey_eq, Ne, jsBearer_check_iff]
    intro he
    have hd := congrArg (fun s => s.data.length) he
    simp only [String.data_append, List.length_append] at hd
    have h8 : "Bearer  ".data.length = 8 := rfl
    have h7 : "Bearer ".data.length = 7 := rfl
    rw [h8, h7] at hd
    omega

/-- Claim C10, witness: the exact concatenation is accepted for the key
`secret-key`, exercising both directions of the characterization. -/
theorem c10_witness :
    IndexTs.validateApiKey "secret-key" "Bearer secret-key" = true
    ∧ IndexTs.validateApiKey "secret-key" ("bearer " ++ "secret-key") = false :=
  ⟨(c10_bearer_exact_match "secret-key" "Bearer secret-key").1.mpr rfl,
   (c10_bearer_exact_match "secret-key" "Bearer secret-key").2.2.2.1⟩
